import Mathlib

/-!
Verification of the `wranglegist` snippet-publishing module
(`houdini/python3.7libs/wranglegist.py`).

The Python module is shallowly embedded below.  Strings are modelled as
Lean `String`s (lists of characters); the Python helpers that the module
relies on (`str.rstrip`, `str.split`, `str.lower`, `str.startswith`,
`tuple.index`, the concrete regular expressions it builds) are modelled
by explicit executable functions on `List Char`.  Fallible Python code
(code that can raise) is modelled with `Except PyExc`, where `PyExc`
distinguishes the exception classes the module can raise.
-/

set_option maxRecDepth 4096

/-- The whitespace characters of Python's `str.split` / `str.strip`
(space, tab, newline, carriage return, vertical tab, form feed;
the snippets at hand are ASCII). -/
def isPyWs (c : Char) : Bool :=
  c = ' ' || c = '\t' || c = '\n' || c = '\r' || c = Char.ofNat 11 || c = Char.ofNat 12

/-- Python `str.rstrip()`: drop trailing whitespace. -/
def pyRstrip (l : List Char) : List Char :=
  (l.reverse.dropWhile isPyWs).reverse

/-- Python `s.rstrip().lstrip()` as used by `auto_populate_desc`:
drop trailing then leading whitespace. -/
def pyStrip (l : List Char) : List Char :=
  (pyRstrip l).dropWhile isPyWs

/-- Python `str.lower()` (ASCII range, which is all the module compares). -/
def pyLower (s : String) : String :=
  String.mk (s.data.map Char.toLower)

/-- Boolean prefix test on character lists (Python `str.startswith`,
and the question whether an anchored regex literal matches here). -/
def isPre : List Char → List Char → Bool
  | [], _ => true
  | _ :: _, [] => false
  | p :: ps, c :: cs => p == c && isPre ps cs

/-- Python `str.startswith(pre)`. -/
def pyStartsWith (s pre : String) : Bool :=
  isPre pre.data s.data

/-- Index of the first occurrence of `pat` inside a character list
(the position where a non-greedy regex scan first finds `pat`);
`none` when `pat` never occurs. -/
def findSub (pat : List Char) : List Char → Option Nat
  | [] => if isPre pat [] then some 0 else none
  | c :: cs => if isPre pat (c :: cs) then some 0 else (findSub pat cs).map (· + 1)

/-- Python `str.split()` with no argument: maximal runs of
non-whitespace characters, with empty chunks dropped. -/
def pySplit (l : List Char) : List (List Char) :=
  (l.splitOnP isPyWs).filter (fun w => ¬ w.isEmpty)

/-- Python `"_".join(words)`. -/
def underscoreJoin (ws : List (List Char)) : List Char :=
  List.intercalate ['_'] ws

/-- The exception classes the module can raise: its own `GistError`,
plus the builtin `ValueError`, `TypeError` and `AttributeError` that
appear in the code paths modelled here. -/
inductive PyExc where
  | gistError (msg : String)
  | valueError (msg : String)
  | typeError (msg : String)
  | attributeError
deriving DecidableEq, Repr

/-- Message accessor modelling `GistError.message` (builtin exceptions carry their own text;
only `GistError.message` is ever read by the module). -/
def PyExc.message : PyExc → String
  | .gistError m => m
  | .valueError m => m
  | .typeError m => m
  | .attributeError => ""

def isGistError : PyExc → Bool
  | .gistError _ => true
  | _ => false

/-- Model of `VALID_EXTENSIONS = [".h", ".vfl", ".c", ".cl", ".py"]`. -/
def VALID_EXTENSIONS : List String := [".h", ".vfl", ".c", ".cl", ".py"]

/-- Model of `VISIBILITY_TAGS = ("private", "public")`. -/
def VISIBILITY_TAGS : List String := ["private", "public"]

def extInvalidMsg : String :=
  "Extension must be one of the following: .h .vfl .c .cl .py"

def emptyFilenameMsg : String := "Filename cannot be an empty string!"

def reservedFilenameMsg : String := "Gist files cannot contain gistfile\\d+"

def emptySnippetMsg : String := "Snippet cannot be empty!"

def vizInvalidMsg : String :=
  "Invalid visibility selection. Options are \"private\" \"public\" without the quotes)."

def tupleIndexMsg : String := "tuple.index(x): x not in tuple"

/-- The dot-prefixing step of the `ext` setter:
`if not extension.startswith("."): extension = "." + extension`. -/
def withDot (extension : String) : String :=
  if pyStartsWith extension "." then extension else "." ++ extension

/-- Model of the `Gist.ext` setter: prepend a dot when missing, then require
membership in `VALID_EXTENSIONS`. -/
def extSet (extension : String) : Except PyExc String :=
  let e := withDot extension
  if e ∈ VALID_EXTENSIONS then .ok e
  else .error (.gistError extInvalidMsg)

/-- Whether the `ext` setter accepts the input. -/
def extOk (extension : String) : Bool :=
  match extSet extension with
  | .ok _ => true
  | .error _ => false

/-- Model of `tuple.index`: position of the first element equal to `x`,
`none` when absent (Python raises `ValueError` in that case). -/
def tupleIndex (l : List String) (x : String) : Option Nat :=
  match l with
  | [] => none
  | a :: as => if a = x then some 0 else (tupleIndex as x).map (· + 1)

/-- Model of the `Gist.visibility` setter: reject when `viz.lower()` is not in
`VISIBILITY_TAGS`, then store `viz` and set
`public = bool(VISIBILITY_TAGS.index(viz))` — note the `index` lookup
uses the original `viz`, not `viz.lower()`, and raises `ValueError`
when `viz` itself is not in the tuple. -/
def visibilitySet (viz : String) : Except PyExc (String × Bool) :=
  if pyLower viz ∈ VISIBILITY_TAGS then
    match tupleIndex VISIBILITY_TAGS viz with
    | some i => .ok (viz, i != 0)
    | none => .error (.valueError tupleIndexMsg)
  else .error (.valueError vizInvalidMsg)

/-- Truth of `re.match(r"gistfile\d+", name)`: `name` starts with
`gistfile` followed by at least one ASCII digit. -/
def matchGistfile (name : String) : Bool :=
  isPre "gistfile".data name.data &&
    (match name.data.drop 8 with
     | [] => false
     | c :: _ => c.isDigit)

/-- Model of the `Gist.filename` setter: reject empty names and names matching the
reserved `gistfile\d+` pattern, then store
`"_".join(name.split()) + self.ext`. -/
def filenameSet (name : String) (ext : String) : Except PyExc String :=
  if name = "" then .error (.gistError emptyFilenameMsg)
  else if matchGistfile name then .error (.gistError reservedFilenameMsg)
  else .ok (String.mk (underscoreJoin (pySplit name.data)) ++ ext)

/-- Model of the `Gist.desc` setter: `(description[0].upper() + description[1:]).rstrip(".")`;
the `IndexError` on an empty string is caught and the original kept. -/
def descSet (description : String) : String :=
  match description.data with
  | [] => description
  | c :: rest => String.mk (((Char.toUpper c :: rest).reverse.dropWhile (· == '.')).reverse)

/-- Model of the `Gist.snippet` setter: reject empty snippets. -/
def snippetSet (code : String) : Except PyExc String :=
  if code = "" then .error (.gistError emptySnippetMsg)
  else .ok code

/-- The attributes a fully constructed `Gist` ends up with. -/
structure GistState where
  name : String
  ext : String
  desc : String
  snippet : String
  visibility : String
  public : Bool
deriving DecidableEq, Repr

/-- Model of `Gist.__init__(filename, ext, desc, snippet, visibility)`:
assigns `self.ext`, `self.visibility`, `self.filename`, `self.desc`,
`self.snippet` in that order (each assignment runs its validating
setter, and the first raising setter aborts construction), and finally
executes `self.public = True`, overwriting the boolean the visibility
setter derived. -/
def Gist.init (filename ext desc snippet visibility : String) :
    Except PyExc GistState :=
  match extSet ext with
  | .error err => .error err
  | .ok e =>
    match visibilitySet visibility with
    | .error err => .error err
    | .ok vp =>
      match filenameSet filename e with
      | .error err => .error err
      | .ok name =>
        let d := descSet desc
        match snippetSet snippet with
        | .error err => .error err
        | .ok snip =>
          .ok { name := name, ext := e, desc := d, snippet := snip,
                visibility := vp.1, public := true }

def missingTokenMsg : String :=
  "Unable to locate personal access token at ~/gist_personal_access_token. Are you sure you created one?"

def emptyTokenMsg : String :=
  "Token file is empty. Please make sure you copied and pasted the token string from GitHub!"

/-- Split off `file.readline()` (the first line, including its newline)
from the rest of the file contents. -/
def splitFirstLine : List Char → List Char × List Char
  | [] => ([], [])
  | c :: cs =>
    if c = '\n' then ([c], cs)
    else
      let p := splitFirstLine cs
      (c :: p.1, p.2)

/-- Whether `pat` occurs somewhere inside `s` (used to state that an
error message references a path). -/
def hasSub (s pat : String) : Bool :=
  (findSub pat.data s.data).isSome

/-- Model of `GitHubAuth._auth()`, with the filesystem abstracted as the optional
contents of `~/gist_personal_access_token` (`none` = the file does not
exist).  Missing file: `GistError` naming the expected path.  Otherwise
`user = file.readline().rstrip()`, `token = file.read().rstrip()`, and
an empty `token` raises `GistError`. -/
def GitHubAuth.auth (file : Option String) : Except PyExc (String × String) :=
  match file with
  | none => .error (.gistError missingTokenMsg)
  | some content =>
      let p := splitFirstLine content.data
      let user := String.mk (pyRstrip p.1)
      let token := String.mk (pyRstrip p.2)
      if token = "" then .error (.gistError emptyTokenMsg)
      else .ok (user, token)

def handlerTypeMsg : String := "Handler can only handle <GistError>s"

def gistDialogTitle : String := "Gist Submission Error"

/-- The three execution contexts `GistErrorHandler._get_context` can
return: `cli` (the `hou` module is not importable — headless),
`hou` (host present, no UI — batch), `hou_ui` (host UI available —
interactive). -/
inductive HandlerContext where
  | cli
  | hou
  | hou_ui
deriving DecidableEq, Repr

/-- Model of `GistErrorHandler._get_context()`: start from `"cli"`; when
`import hou` succeeds the context becomes `"hou"`, and `"hou_ui"` when
`hou.isUIAvailable()` additionally holds. -/
def GistErrorHandler.getContext (houImportable uiAvailable : Bool) : HandlerContext :=
  if houImportable then
    if uiAvailable then .hou_ui else .hou
  else .cli

/-- Model of `GistErrorHandler.handle()`: in contexts `"cli"` and `"hou"` the
stored error is re-raised; in `"hou_ui"` a `hou.ui.displayMessage`
dialog is shown with the error's message and the method returns
normally.  A normal return is modelled as `.ok` of the dialog's
(message, title) pair. -/
def GistErrorHandler.handle (ctx : HandlerContext) (err : PyExc) :
    Except PyExc (String × String) :=
  match ctx with
  | .cli => .error err
  | .hou => .error err
  | .hou_ui => .ok (err.message, gistDialogTitle)

/-- Model of `GistErrorHandler.__init__(err)`: the `err` setter first rejects
anything that is not a `GistError` with a `TypeError`; only then is the
context detected and `handle()` invoked. -/
def GistErrorHandler.init (err : PyExc) (houImportable uiAvailable : Bool) :
    Except PyExc (HandlerContext × (String × String)) :=
  if isGistError err then
    let ctx := GistErrorHandler.getContext houImportable uiAvailable
    (GistErrorHandler.handle ctx err).map (fun d => (ctx, d))
  else .error (.typeError handlerTypeMsg)

/-- Count of the leading ASCII digits of a character list (what the
greedy `\d*` consumes). -/
def countDigits (l : List Char) : Nat :=
  (l.takeWhile Char.isDigit).length

/-- Model of `re.match(r"<base>\d*", name)`, modelled for a literal `base` (host
node-type base names contain no regex metacharacters): the match
succeeds exactly when `base` is a prefix of `name` (`\d*` happily
matches zero digits), and consumes the base plus the following digit
run.  Returns the length of the match, `none` on failure. -/
def reMatchBaseDigits (base name : String) : Option Nat :=
  if isPre base.data name.data then
    some (base.length + countDigits (name.data.drop base.length))
  else none

/-- Model of `guess_filename(node)`, abstracted over the two strings the code
reads from the node: `node.name()` and
`node.type().nameComponents()[2]`.  Returns the name verbatim when the
(start-anchored) pattern does not match, `""` when it does. -/
def guess_filename (name base : String) : String :=
  match reMatchBaseDigits base name with
  | none => name
  | some _ => ""

/-- Modelled from the spec's words (claim C4): the fully anchored
pattern `^<base>\d*$` — `name` is `base` followed by digits only. -/
def specAnchoredMatch (base name : String) : Bool :=
  isPre base.data name.data && (name.data.drop base.length).all Char.isDigit

def squote : Char := Char.ofNat 39

def dquote : Char := Char.ofNat 34

/-- The literal three-character string of single quotes. -/
def tripleSquote : String := String.mk [squote, squote, squote]

/-- The literal three-character string of double quotes. -/
def tripleDquote : String := String.mk [dquote, dquote, dquote]

/-- Model of `singleline = ("//", "#")`. -/
def singleline : List String := ["//", "#"]

/-- Model of `multiline = ("/\*", "\'\'\'", "\"\"\"")` — the first element is
the three-character *pattern string* slash-backslash-star exactly as it
sits in the Python tuple (the backslash survives into the string). -/
def multiline : List String := ["/\\*", tripleSquote, tripleDquote]

/-- The literal texts the alternation
`^(//|#|/\*|'''|""")` can match (the pattern `/\*` matches the
two-character text `/*`), in alternation order. -/
def tokenAlternatives : List String := ["//", "#", "/*", tripleSquote, tripleDquote]

/-- Group 1 of `re.match(r"^(//|#|/\*|'''|\"\"\")(.*)", snippet).group(1)`:
the first alternative whose literal text opens the snippet
(`none` when the overall match fails). -/
def firstToken (s : String) : Option String :=
  tokenAlternatives.find? (fun t => pyStartsWith s t)

/-- Python slice `token[::-1]`. -/
def revString (s : String) : String := String.mk s.data.reverse

/-- Python `desc.replace("\n", " ")`. -/
def replaceNl (l : List Char) : List Char :=
  l.map (fun c => if c = '\n' then ' ' else c)

/-- Model of `auto_populate_desc(snippet)`.  After the opening match, the
matched text is looked up in `singleline` and `multiline`; a
single-line token takes the text up to the first newline
(the `AttributeError` when there is none is caught and `desc` stays
empty); a token found in `multiline` takes the non-greedy span up to
`token[::-1]`, collapsing newlines — and a failed search there calls
`.group(1)` on `None`, an uncaught `AttributeError`.  A matched token
in neither list (the text `/*` never equals the pattern string
`/\*` stored in `multiline`) leaves `desc` empty.  The result is
returned as `desc.rstrip().lstrip()`. -/
def auto_populate_desc (snippet : String) : Except PyExc String :=
  match firstToken snippet with
  | none => .ok ""
  | some token =>
      if token ∈ singleline then
        match findSub ['\n'] (snippet.data.drop token.length) with
        | some i => .ok (String.mk (pyStrip ((snippet.data.drop token.length).take i)))
        | none => .ok ""
      else if token ∈ multiline then
        match findSub (revString token).data (snippet.data.drop token.length) with
        | some i =>
            .ok (String.mk (pyStrip (replaceNl ((snippet.data.drop token.length).take i))))
        | none => .error .attributeError
      else .ok ""

/-- Modelled from the spec's words (claim C5): the reserved pattern
`gistfile\d*` — the prefix `gistfile` followed by zero or more
digits. -/
def specReservedMatch (name : String) : Bool :=
  isPre "gistfile".data name.data

/-- Modelled from the spec's words (claim C8): "the first line
(trimmed of trailing newline)" — the text of the first line with only
the line terminator removed. -/
def claimUserReading (content : String) : String :=
  String.mk (content.data.takeWhile (fun c => c != '\n'))


/-- C1.  The claim says a constructed Gist's `public` boolean is `true`
exactly when the visibility case-insensitively equals `"public"`, and
in particular is `false` after construction with `"private"`.  The code
disagrees: `__init__` ends with `self.public = True`, overwriting the
boolean the visibility setter derived, so a Gist constructed with
visibility `"private"` still ends up with `public = True`.  This
theorem evaluates the embedded constructor at that failing input. -/
theorem C1_private_still_public :
    Gist.init "f" "py" "d" "code" "private" =
      .ok { name := "f.py", ext := ".py", desc := "D", snippet := "code",
            visibility := "private", public := true } := rfl

/-- C2.  The claim says constructing with visibility `"Public"` or
`"PRIVATE"` succeeds.  In the code the case-insensitive membership
check passes for both, but `VISIBILITY_TAGS.index(viz)` is then called
with the original mixed-case string and raises `ValueError`, so
construction fails.  This theorem evaluates the embedded constructor at
both failing inputs (and records that the membership check itself
accepted them). -/
theorem C2_mixed_case_visibility_crashes :
    pyLower "Public" ∈ VISIBILITY_TAGS ∧ pyLower "PRIVATE" ∈ VISIBILITY_TAGS ∧
      Gist.init "f" "py" "d" "code" "Public" = .error (.valueError tupleIndexMsg) ∧
      Gist.init "f" "py" "d" "code" "PRIVATE" = .error (.valueError tupleIndexMsg) :=
  ⟨by decide, by decide, rfl, rfl⟩

/-- C3 counterexample.  The claim says a snippet opening with `/*`
yields the content up to the matching closing marker; on
`"/*x*/\ny"` that content is `"x"`, but the code returns `""` (the
matched text `/*` is never found in the `multiline` tuple, which holds
the escaped pattern string instead). -/
theorem C3_block_comment_counterexample :
    auto_populate_desc "/*x*/\ny" = .ok "" ∧ ("" : String) ≠ "x" :=
  ⟨rfl, by decide⟩

/-- C4 counterexample.  The claim says `guess_filename` returns the
node name verbatim whenever the anchored pattern `^base\d*$` does not
match.  `"wranglex"` does not match `^wrangle\d*$`, yet the code
returns `""` because its `re.match` is only start-anchored and `\d*`
matches the empty string. -/
theorem C4_unanchored_counterexample :
    specAnchoredMatch "wrangle" "wranglex" = false ∧
      guess_filename "wranglex" "wrangle" = "" ∧ ("wranglex" : String) ≠ "" :=
  ⟨rfl, rfl, by decide⟩

/-- C5 counterexample.  The claim reserves every filename matching
`gistfile\d*`; `"gistfile"` (zero digits) is in that set, yet
construction succeeds because the code's pattern is `gistfile\d+`,
requiring at least one digit. -/
theorem C5_bare_gistfile_counterexample :
    specReservedMatch "gistfile" = true ∧
      Gist.init "gistfile" "py" "d" "code" "public" =
        .ok { name := "gistfile.py", ext := ".py", desc := "D", snippet := "code",
              visibility := "public", public := true } :=
  ⟨rfl, rfl⟩

/-- C6 counterexample.  The claim says the filename is validated before
the visibility, so with both invalid the filename error should be
raised.  With empty filename and visibility `"banana"` the code raises
the visibility `ValueError` instead: visibility is validated before the
filename. -/
theorem C6_visibility_before_filename_counterexample :
    Gist.init "" "py" "d" "code" "banana" = .error (.valueError vizInvalidMsg) ∧
      PyExc.valueError vizInvalidMsg ≠ PyExc.gistError emptyFilenameMsg :=
  ⟨rfl, by decide⟩

/-- C8 counterexample.  The claim says the username is the first line
trimmed of its trailing newline, which on the contents
`"user \ntok"` is `"user "`.  The code applies `rstrip()` to the whole
line, so the trailing space is removed as well and the username is
`"user"`. -/
theorem C8_rstrip_counterexample :
    GitHubAuth.auth (some "user \ntok") = .ok ("user", "tok") ∧
      claimUserReading "user \ntok" = "user " ∧ ("user" : String) ≠ "user " :=
  ⟨rfl, rfl, by decide⟩

/-- C9.  Context detection with no host module importable yields the
headless context `cli`; in contexts `cli` (headless) and `hou`
(host-batch) `handle` re-raises the stored error, and in `hou_ui`
(host-interactive) it suppresses propagation, returning normally with a
modal dialog carrying the error's message. -/
theorem C9_context_reporting (err : PyExc) :
    GistErrorHandler.getContext false false = .cli ∧
      GistErrorHandler.getContext false true = .cli ∧
      GistErrorHandler.handle .cli err = .error err ∧
      GistErrorHandler.handle .hou err = .error err ∧
      GistErrorHandler.handle .hou_ui err = .ok (err.message, gistDialogTitle) :=
  ⟨rfl, rfl, rfl, rfl, rfl⟩

/-- C10.  For every exception value that is not a `GistError`,
constructing the handler fails with a `TypeError` before any context
detection or reporting takes place (the result carries no context and
no dialog, whatever the environment flags are). -/
theorem C10_handler_rejects_foreign_errors (err : PyExc)
    (houImportable uiAvailable : Bool) (h : isGistError err = false) :
    GistErrorHandler.init err houImportable uiAvailable =
      .error (.typeError handlerTypeMsg) := by
  simp [GistErrorHandler.init, h]

/-- Witness for C10 at the `ValueError` produced by an invalid
visibility string: it is not a `GistError`, so the handler rejects it. -/
theorem C10_witness :
    visibilitySet "banana" = .error (.valueError vizInvalidMsg) ∧
      isGistError (.valueError vizInvalidMsg) = false ∧
      GistErrorHandler.init (.valueError vizInvalidMsg) true true =
        .error (.typeError handlerTypeMsg) :=
  ⟨rfl, rfl, C10_handler_rejects_foreign_errors (.valueError vizInvalidMsg) true true rfl⟩

/-- Helper: data of a dot-prefixed string. -/
theorem dot_append_data (s : String) : ("." ++ s).data = '.' :: s.data := by
  cases s with
  | mk l => rfl

/-- Helper: prepending the dot is injective. -/
theorem append_dot_cancel {e t : String} (h : "." ++ e = "." ++ t) : e = t := by
  apply String.ext
  have h2 := congrArg String.data h
  rw [dot_append_data, dot_append_data] at h2
  injection h2

/-- Helper: any input the `ext` setter accepts is one of the five
allowed extensions written with or without its leading dot. -/
theorem mem_forms_of_valid (e : String) (hm : withDot e ∈ VALID_EXTENSIONS) :
    e ∈ (["h", "vfl", "c", "cl", "py", ".h", ".vfl", ".c", ".cl", ".py"] : List String) := by
  by_cases hp : pyStartsWith e "." = true
  · have hw : withDot e = e := by simp [withDot, hp]
    rw [hw] at hm
    simp only [VALID_EXTENSIONS, List.mem_cons, List.not_mem_nil, or_false] at hm
    rcases hm with h | h | h | h | h <;> subst h <;> decide
  · have hw : withDot e = "." ++ e := by simp [withDot, hp]
    rw [hw] at hm
    simp only [VALID_EXTENSIONS, List.mem_cons, List.not_mem_nil, or_false] at hm
    rcases hm with h | h | h | h | h
    · have he := append_dot_cancel (h.trans (show (".h" : String) = "." ++ "h" from rfl))
      subst he; decide
    · have he := append_dot_cancel (h.trans (show (".vfl" : String) = "." ++ "vfl" from rfl))
      subst he; decide
    · have he := append_dot_cancel (h.trans (show (".c" : String) = "." ++ "c" from rfl))
      subst he; decide
    · have he := append_dot_cancel (h.trans (show (".cl" : String) = "." ++ "cl" from rfl))
      subst he; decide
    · have he := append_dot_cancel (h.trans (show (".py" : String) = "." ++ "py" from rfl))
      subst he; decide

/-- C7.  Extension validation succeeds exactly for the allow-list
`{.h, .vfl, .c, .cl, .py}`, whether or not the input carries the
leading dot; an accepted input is stored dot-prefixed (the dot is
prepended when missing) and lies in `VALID_EXTENSIONS`; a rejected
input fails with the `GistError` whose message lists the allow-list. -/
theorem C7_extension_allowlist (e : String) :
    (extOk e = true ↔
       e ∈ (["h", "vfl", "c", "cl", "py", ".h", ".vfl", ".c", ".cl", ".py"] : List String)) ∧
    (extOk e = true →
       extSet e = .ok (withDot e) ∧ pyStartsWith (withDot e) "." = true ∧
         withDot e ∈ VALID_EXTENSIONS) ∧
    (extOk e = false → extSet e = .error (.gistError extInvalidMsg)) := by
  by_cases hm : withDot e ∈ VALID_EXTENSIONS
  · have hset : extSet e = .ok (withDot e) := by simp [extSet, hm]
    have hok : extOk e = true := by simp [extOk, hset]
    refine ⟨?_, fun _ => ⟨hset, ?_, hm⟩, fun hc => by simp [hok] at hc⟩
    · simp only [hok, true_iff]
      exact mem_forms_of_valid e hm
    · have hm2 := hm
      simp only [VALID_EXTENSIONS, List.mem_cons, List.not_mem_nil, or_false] at hm2
      rcases hm2 with h | h | h | h | h <;> rw [h] <;> decide
  · have hset : extSet e = .error (.gistError extInvalidMsg) := by simp [extSet, hm]
    have hok : extOk e = false := by simp [extOk, hset]
    refine ⟨?_, fun hc => by simp [hok] at hc, fun _ => hset⟩
    simp only [hok, Bool.false_eq_true, false_iff]
    intro hmem
    apply hm
    simp only [List.mem_cons, List.not_mem_nil, or_false] at hmem
    rcases hmem with h | h | h | h | h | h | h | h | h | h <;> subst h <;> decide

/-- Witness for C7 at the dotless input `"py"`. -/
theorem C7_witness :
    extSet "py" = .ok (withDot "py") ∧ pyStartsWith (withDot "py") "." = true ∧
      withDot "py" ∈ VALID_EXTENSIONS ∧ withDot "py" = ".py" :=
  ⟨((C7_extension_allowlist "py").2.1 rfl).1,
   ((C7_extension_allowlist "py").2.1 rfl).2.1,
   ((C7_extension_allowlist "py").2.1 rfl).2.2, rfl⟩

/-- C4 (amended).  The code's pattern is only start-anchored, and
`\d*` can match the empty string, so `guess_filename` returns `""`
exactly when the node-type base name is a prefix of the node name, and
the node name verbatim otherwise. -/
theorem C4_prefix_behavior (name base : String) :
    (isPre base.data name.data = false → guess_filename name base = name) ∧
    (isPre base.data name.data = true → guess_filename name base = "") := by
  constructor <;> intro h <;> simp [guess_filename, reMatchBaseDigits, h]

/-- Witness for C4 at the spec's two examples. -/
theorem C4_witness :
    guess_filename "my_custom_node" "wrangle" = "my_custom_node" ∧
      guess_filename "wrangle1" "wrangle" = "" :=
  ⟨(C4_prefix_behavior "my_custom_node" "wrangle").1 rfl,
   (C4_prefix_behavior "wrangle1" "wrangle").2 rfl⟩

/-- C6 (amended).  Construction validates the fields in the order
extension, then visibility, then filename, then body (the description
setter never raises): the error reported is the one of the earliest
failing setter in that order. -/
theorem C6_validation_order (f e d s v : String) :
    (∀ err, extSet e = .error err → Gist.init f e d s v = .error err) ∧
    (∀ E err, extSet e = .ok E → visibilitySet v = .error err →
       Gist.init f e d s v = .error err) ∧
    (∀ E p err, extSet e = .ok E → visibilitySet v = .ok p →
       filenameSet f E = .error err → Gist.init f e d s v = .error err) ∧
    (∀ E p n err, extSet e = .ok E → visibilitySet v = .ok p →
       filenameSet f E = .ok n → snippetSet s = .error err →
       Gist.init f e d s v = .error err) := by
  refine ⟨fun err h1 => ?_, fun E err h1 h2 => ?_, fun E p err h1 h2 h3 => ?_,
    fun E p n err h1 h2 h3 h4 => ?_⟩
  · simp [Gist.init, h1]
  · simp [Gist.init, h1, h2]
  · simp [Gist.init, h1, h2, h3]
  · simp [Gist.init, h1, h2, h3, h4]

/-- Witness for C6: an invalid extension is reported first. -/
theorem C6_witness :
    Gist.init "x" "txt" "d" "code" "public" = .error (.gistError extInvalidMsg) :=
  (C6_validation_order "x" "txt" "d" "code" "public").1 (.gistError extInvalidMsg) rfl

/-- C5 (amended).  With the other fields valid, construction fails
(with the reserved-pattern `GistError`) exactly for filenames starting
with `gistfile` followed by at least one digit — the bare `"gistfile"`
is accepted — and for every other non-empty filename it succeeds,
storing the whitespace-split words of the input joined by single
underscores, followed by the dot-prefixed extension. -/
theorem C5_reserved_and_sanitized (f : String) :
    (matchGistfile f = true →
       Gist.init f "py" "d" "code" "public" = .error (.gistError reservedFilenameMsg)) ∧
    (f ≠ "" → matchGistfile f = false →
       Gist.init f "py" "d" "code" "public" =
         .ok { name := String.mk (underscoreJoin (pySplit f.data)) ++ ".py",
               ext := ".py", desc := "D", snippet := "code",
               visibility := "public", public := true }) := by
  constructor
  · intro hm
    have hne : f ≠ "" := by
      intro h
      rw [h] at hm
      exact absurd hm (by decide)
    have hf : filenameSet f ".py" = .error (.gistError reservedFilenameMsg) := by
      simp [filenameSet, hne, hm]
    simp [Gist.init, hf, show extSet "py" = .ok ".py" from rfl,
      show visibilitySet "public" = .ok ("public", true) from rfl]
  · intro hne hm
    have hf : filenameSet f ".py" =
        .ok (String.mk (underscoreJoin (pySplit f.data)) ++ ".py") := by
      simp [filenameSet, hne, hm]
    simp [Gist.init, hf, show extSet "py" = .ok ".py" from rfl,
      show visibilitySet "public" = .ok ("public", true) from rfl,
      show snippetSet "code" = .ok "code" from rfl]
    rfl

/-- Witness for C5: internal whitespace becomes an underscore and the
extension is appended. -/
theorem C5_witness :
    Gist.init "my file" "py" "d" "code" "public" =
      .ok { name := "my_file.py", ext := ".py", desc := "D", snippet := "code",
            visibility := "public", public := true } :=
  ((C5_reserved_and_sanitized "my file").2 (by decide) rfl).trans rfl

/-- Helper: trailing-trim yields the empty list exactly on
all-whitespace input. -/
theorem pyRstrip_eq_nil_iff (l : List Char) :
    pyRstrip l = [] ↔ l.all isPyWs = true := by
  simp [pyRstrip, List.dropWhile_eq_nil_iff, List.all_eq_true, List.mem_reverse]

/-- C8 (amended).  A missing file raises the `GistError` whose message
references `~/gist_personal_access_token`; when everything after the
first line is whitespace-only (empty token after trimming) the
empty-token `GistError` is raised; otherwise the call returns the first
line and the remainder, each with trailing whitespace stripped
(`rstrip`, not a trim of the newline alone and not a two-sided trim). -/
theorem C8_credential_loading :
    (GitHubAuth.auth none = .error (.gistError missingTokenMsg) ∧
       hasSub missingTokenMsg "~/gist_personal_access_token" = true) ∧
    (∀ c : String,
       ((splitFirstLine c.data).2.all isPyWs = true →
          GitHubAuth.auth (some c) = .error (.gistError emptyTokenMsg)) ∧
       ((splitFirstLine c.data).2.all isPyWs = false →
          GitHubAuth.auth (some c) =
            .ok (String.mk (pyRstrip (splitFirstLine c.data).1),
                 String.mk (pyRstrip (splitFirstLine c.data).2)))) := by
  refine ⟨⟨rfl, rfl⟩, fun c => ⟨fun hall => ?_, fun hall => ?_⟩⟩
  · have h0 : pyRstrip (splitFirstLine c.data).2 = [] := (pyRstrip_eq_nil_iff _).mpr hall
    simp [GitHubAuth.auth, h0]
  · have h0 : ¬ pyRstrip (splitFirstLine c.data).2 = [] := by
      rw [pyRstrip_eq_nil_iff]
      simp [hall]
    have h1 : ¬ (String.mk (pyRstrip (splitFirstLine c.data).2) = "") := by
      simpa [String.ext_iff] using h0
    simp [GitHubAuth.auth, h1]

/-- Witness for C8 on a well-formed two-line credential file. -/
theorem C8_witness :
    GitHubAuth.auth (some "alice\nTOK123\n") = .ok ("alice", "TOK123") :=
  ((C8_credential_loading.2 "alice\nTOK123\n").2 rfl).trans rfl

/-- Helper: evaluation of `auto_populate_desc` on a snippet opening
with `#`. -/
theorem apd_hash (r : List Char) :
    auto_populate_desc (String.mk ('#' :: r)) =
      match findSub ['\n'] r with
      | some i => .ok (String.mk (pyStrip (r.take i)))
      | none => .ok "" := rfl

/-- Helper: evaluation of `auto_populate_desc` on a snippet opening
with `//`. -/
theorem apd_slashes (r : List Char) :
    auto_populate_desc (String.mk ('/' :: '/' :: r)) =
      match findSub ['\n'] r with
      | some i => .ok (String.mk (pyStrip (r.take i)))
      | none => .ok "" := rfl

/-- Helper: evaluation of `auto_populate_desc` on a snippet opening
with `/*` — the matched text is in neither token list, so the
description stays empty. -/
theorem apd_block (r : List Char) :
    auto_populate_desc (String.mk ('/' :: '*' :: r)) = .ok "" := rfl

/-- Helper: evaluation of `auto_populate_desc` on a snippet opening
with a triple quote (single or double). -/
theorem apd_triple (q : Char) (hq : q = squote ∨ q = dquote) (r : List Char) :
    auto_populate_desc (String.mk (q :: q :: q :: r)) =
      match findSub [q, q, q] r with
      | some i => .ok (String.mk (pyStrip (replaceNl (r.take i))))
      | none => .error .attributeError := by
  rcases hq with h | h <;> subst h <;> rfl

/-- Helper: the newline search fails exactly when there is no
newline. -/
theorem findSub_nl_eq_none_iff (r : List Char) :
    findSub ['\n'] r = none ↔ '\n' ∉ r := by
  induction r with
  | nil => simp [findSub, isPre]
  | cons c cs ih =>
    by_cases hc : c = '\n'
    · subst hc
      have h1 : findSub ['\n'] ('\n' :: cs) = some 0 := rfl
      simp [h1]
    · have hc2 : ¬ ('\n' = c) := fun h => hc h.symm
      have hp : isPre ['\n'] (c :: cs) = false := by
        simp [isPre]
        exact hc2
      simp [findSub, hp, ih, hc2]

/-- Helper: a successful newline search takes exactly the characters
before the first newline. -/
theorem findSub_nl_take (r : List Char) (i : Nat) (h : findSub ['\n'] r = some i) :
    r.take i = r.takeWhile (fun c => c != '\n') := by
  induction r generalizing i with
  | nil => simp [findSub, isPre] at h
  | cons c cs ih =>
    by_cases hc : c = '\n'
    · subst hc
      have h1 : findSub ['\n'] ('\n' :: cs) = some 0 := rfl
      rw [h1] at h
      injection h with h2
      subst h2
      simp [List.takeWhile]
    · have hc2 : ¬ ('\n' = c) := fun h => hc h.symm
      have hp : isPre ['\n'] (c :: cs) = false := by
        simp [isPre]
        exact hc2
      rw [show findSub ['\n'] (c :: cs) = (findSub ['\n'] cs).map (· + 1) from by
        simp [findSub, hp]] at h
      cases ho : findSub ['\n'] cs with
      | none => rw [ho] at h; simp at h
      | some j =>
          rw [ho] at h
          simp at h
          subst h
          have hb : (c != '\n') = true := by simp [hc]
          simp [List.take_succ_cons, List.takeWhile_cons, hb]
          exact ih j ho

/-- C3 (amended).  A snippet opening with `//` or `#` yields the rest
of that first line, trimmed — but only when a newline follows; with no
newline the result is empty.  A snippet opening with `'''` or `"""`
yields the content up to the first occurrence of the same triple quote
(newlines collapsed to spaces, then trimmed) when that closing marker
exists, and raises an uncaught `AttributeError` when it does not.  A
snippet opening with `/*` always yields the empty string (the matched
text never equals the escaped pattern string held in `multiline`), and
a snippet opening with no recognized marker yields the empty string. -/
theorem C3_description_heuristic (s : String) :
    (firstToken s = none → auto_populate_desc s = .ok "") ∧
    (∀ r, s.data = '#' :: r ∨ s.data = '/' :: '/' :: r →
       ('\n' ∈ r → auto_populate_desc s =
          .ok (String.mk (pyStrip (r.takeWhile (fun c => c != '\n'))))) ∧
       ('\n' ∉ r → auto_populate_desc s = .ok "")) ∧
    (∀ r, s.data = '/' :: '*' :: r → auto_populate_desc s = .ok "") ∧
    (∀ q r, (q = squote ∨ q = dquote) → s.data = q :: q :: q :: r →
       (∀ i, findSub [q, q, q] r = some i →
          auto_populate_desc s = .ok (String.mk (pyStrip (replaceNl (r.take i))))) ∧
       (findSub [q, q, q] r = none → auto_populate_desc s = .error .attributeError)) := by
  obtain ⟨data⟩ := s
  refine ⟨fun h => ?_, fun r hr => ?_, fun r hr => ?_, fun q r hq hr => ?_⟩
  · simp [auto_populate_desc, h]
  · have hd : data = '#' :: r ∨ data = '/' :: '/' :: r := hr
    constructor
    · intro hmem
      obtain ⟨i, hi⟩ : ∃ i, findSub ['\n'] r = some i := by
        cases ho : findSub ['\n'] r with
        | none => exact absurd hmem ((findSub_nl_eq_none_iff r).mp ho)
        | some j => exact ⟨j, rfl⟩
      rcases hd with h | h <;> subst h
      · simp only [apd_hash, hi, findSub_nl_take r i hi]
      · simp only [apd_slashes, hi, findSub_nl_take r i hi]
    · intro hmem
      have ho : findSub ['\n'] r = none := (findSub_nl_eq_none_iff r).mpr hmem
      rcases hd with h | h <;> subst h
      · simp only [apd_hash, ho]
      · simp only [apd_slashes, ho]
  · have hd : data = '/' :: '*' :: r := hr
    subst hd
    exact apd_block r
  · have hd : data = q :: q :: q :: r := hr
    subst hd
    refine ⟨fun i hi => ?_, fun ho => ?_⟩
    · simp only [apd_triple q hq r, hi]
    · simp only [apd_triple q hq r, ho]

/-- Witness for C3 at the spec's single-line example. -/
theorem C3_witness :
    auto_populate_desc "# a comment\ncode();" = .ok "a comment" := by
  have h := (((C3_description_heuristic "# a comment\ncode();").2.1
    (" a comment\ncode();".data) (Or.inl rfl)).1 (by decide))
  exact h.trans rfl
